import Mathlib

/-!
Verification of the Azure security monitor pipeline
(azure-security-monitor.py): fetch, normalize, aggregate, render.

The embedding below translates the script into Lean. JSON values returned
by the external CLI are modelled by the inductive type Json. Python dicts
appearing as data are association lists that preserve insertion order,
matching Python dict semantics. Fallible per-record extraction is modelled
with Option: a none result corresponds to an exception caught by the
per-record try/except block. Process-level effects (subprocess calls,
sys.exit) are modelled by explicit outcome parameters.
-/

/-- JSON values as produced by json.loads on the CLI output. -/
inductive Json where
  | null
  | bool (b : Bool)
  | str (s : String)
  | num (n : Int)
  | arr (elems : List Json)
  | obj (fields : List (String × Json))

mutual

/-- Structural equality of JSON values (Python equality on the values the
    program compares: strings, numbers, booleans, arrays, objects). -/
def Json.beq : Json → Json → Bool
  | .null, .null => true
  | .bool a, .bool b => a == b
  | .str a, .str b => a == b
  | .num a, .num b => a == b
  | .arr as, .arr bs => Json.beqList as bs
  | .obj fs, .obj gs => Json.beqFields fs gs
  | _, _ => false

def Json.beqList : List Json → List Json → Bool
  | [], [] => true
  | a :: as, b :: bs => Json.beq a b && Json.beqList as bs
  | _, _ => false

def Json.beqFields : List (String × Json) → List (String × Json) → Bool
  | [], [] => true
  | (k, a) :: as, (k2, b) :: bs => k == k2 && Json.beq a b && Json.beqFields as bs
  | _, _ => false

end

instance : BEq Json := ⟨Json.beq⟩

/-- Python x.get(key, default): succeeds only when x is a dict (any other
    value raises AttributeError, modelled as none); on a dict it returns
    the value stored at key, or the default when the key is absent. -/
def dictGet (j : Json) (key : String) (default : Json) : Option Json :=
  match j with
  | .obj fields => some ((fields.lookup key).getD default)
  | _ => none

/-- The static table of recommendation types with automated fixes,
    from the body of the method check_automated_fix (source lines 85-99). -/
def automated_fixes_table : List (String × Bool) :=
  [("b14a3c4e-f6c8-4b21-9e3a-3c4b5f6e7a8b", true),
   ("a1b2c3d4-e5f6-7890-abcd-ef1234567890", true),
   ("c3d4e5f6-1234-5678-9abc-def123456789", true),
   ("e5f6a7b8-9012-3456-7890-abc123456789", true),
   ("f6a7b8c9-2345-6789-0123-456789abcdef", true),
   ("a7b8c9d0-3456-7890-1234-56789abcdefg", true)]

/-- The method check_automated_fix: look the identifier up in the static
    table, defaulting to false (source line 101). -/
def check_automated_fix (recommendation_type_id : String) : Bool :=
  (automated_fixes_table.lookup recommendation_type_id).getD false

/-- The same lookup applied to the raw JSON value extracted for
    recommendationTypeId. A Python dict get first hashes its key: a list or
    dict key (JSON array or object) is unhashable and raises TypeError,
    modelled as none, which the per-record except clause turns into a
    skipped record. Hashable non-string keys (null, booleans, numbers) miss
    the string-keyed table and yield false; a string key is looked up. -/
def checkAutomatedFixKey : Json → Option Bool
  | .str s => some (check_automated_fix s)
  | .null => some false
  | .bool _ => some false
  | .num _ => some false
  | .arr _ => none
  | .obj _ => none

/-- A processed (normalized) recommendation record, the dict built inside
    process_recommendations (source lines 61-73). Field values are the raw
    JSON values found upstream, or the documented default literals. -/
structure ProcessedRec where
  id : Json
  category : Json
  impact : Json
  problem : Json
  solution : Json
  resource_type : Json
  resource_group : Json
  resource_id : Json
  recommendation_type : Json
  last_updated : Json
  automated_fix_available : Bool

/-- The body of the per-record try block in process_recommendations
    (source lines 56-75): extract nested fields with defaults; none models
    an exception caught by the per-record except clause. -/
def processRecord (rec : Json) : Option ProcessedRec :=
  (dictGet rec "properties" (Json.obj [])).bind fun props =>
  (dictGet props "resourceMetadata" (Json.obj [])).bind fun metadata =>
  (dictGet props "shortDescription" (Json.obj [])).bind fun short_desc =>
  (dictGet rec "id" (Json.str "")).bind fun idv =>
  (dictGet props "category" (Json.str "Unknown")).bind fun category =>
  (dictGet props "impact" (Json.str "Unknown")).bind fun impact =>
  (dictGet short_desc "problem" (Json.str "No description available")).bind fun problem =>
  (dictGet short_desc "solution" (Json.str "No solution available")).bind fun solution =>
  (dictGet metadata "resourceType" (Json.str "Unknown")).bind fun resource_type =>
  (dictGet metadata "resourceGroup" (Json.str "Unknown")).bind fun resource_group =>
  (dictGet metadata "resourceId" (Json.str "")).bind fun resource_id =>
  (dictGet props "recommendationTypeId" (Json.str "")).bind fun recommendation_type =>
  (dictGet props "lastUpdated" (Json.str "")).bind fun last_updated =>
  (checkAutomatedFixKey recommendation_type).bind fun automated_fix_available =>
  some { id := idv, category := category, impact := impact, problem := problem,
         solution := solution, resource_type := resource_type,
         resource_group := resource_group, resource_id := resource_id,
         recommendation_type := recommendation_type, last_updated := last_updated,
         automated_fix_available := automated_fix_available }

/-- The loop of process_recommendations (source lines 53-81): records whose
    extraction raises are skipped, the rest are kept in input order. -/
def process_recommendations : List Json → List ProcessedRec
  | [] => []
  | rec :: rest =>
    match processRecord rec with
    | some p => p :: process_recommendations rest
    | none => process_recommendations rest

/-- Outcome of the az advisor recommendation list subprocess call:
    success with the parsed JSON array, a non-zero exit
    (CalledProcessError), or unparseable output (JSONDecodeError). -/
inductive FetchResult where
  | success (records : List Json)
  | processError
  | parseError

/-- get_security_recommendations (source lines 32-49): on success, process
    the parsed records; on both failure modes, return the empty list. -/
def get_security_recommendations : FetchResult → List ProcessedRec
  | .success raw => process_recommendations raw
  | .processError => []
  | .parseError => []

/-- get_high_priority_recommendations (source lines 103-106) applied to a
    fetched list: keep records whose impact is High or Medium. -/
def get_high_priority_recommendations (recs : List ProcessedRec) : List ProcessedRec :=
  recs.filter (fun rec => rec.impact == Json.str "High" || rec.impact == Json.str "Medium")

/-- get_automated_fix_candidates (source lines 108-111) applied to a
    fetched list: keep records whose automated fix flag is set. -/
def get_automated_fix_candidates (recs : List ProcessedRec) : List ProcessedRec :=
  recs.filter (fun rec => rec.automated_fix_available)

/-- One step of the Python counting idiom d[k] = d.get(k, 0) + 1 on an
    insertion-ordered dict: bump the count in place when the key is
    present, otherwise append the key at the end with count 1. -/
def dictIncr (counts : List (Json × Nat)) (key : Json) : List (Json × Nat) :=
  match counts with
  | [] => [(key, 1)]
  | (k, v) :: rest =>
    if k == key then (k, v + 1) :: rest else (k, v) :: dictIncr rest key

/-- The report dict built by generate_security_report (source lines 132-143). -/
structure SecurityReport where
  timestamp : String
  subscription_id : String
  total_recommendations : Nat
  impact_breakdown : List (Json × Nat)
  resource_type_breakdown : List (Json × Nat)
  automated_fix_candidates : Nat
  high_priority_recommendations : List ProcessedRec
  automated_fix_ready : List ProcessedRec

/-- generate_security_report (source lines 113-145) over the fetched
    recommendation list: count by impact, count by resource type, and
    select the capped top-10 High and top-5 automated-fix subsets. -/
def generate_security_report (subscription_id timestamp : String)
    (recommendations : List ProcessedRec) : SecurityReport :=
  let impact_counts := recommendations.foldl (fun counts rec => dictIncr counts rec.impact) []
  let resource_type_counts :=
    recommendations.foldl (fun counts rec => dictIncr counts rec.resource_type) []
  let automated_fixes := get_automated_fix_candidates recommendations
  { timestamp := timestamp
    subscription_id := subscription_id
    total_recommendations := recommendations.length
    impact_breakdown := impact_counts
    resource_type_breakdown := resource_type_counts
    automated_fix_candidates := automated_fixes.length
    high_priority_recommendations :=
      (recommendations.filter (fun rec => rec.impact == Json.str "High")).take 10
    automated_fix_ready := automated_fixes.take 5 }

/-- The resource breakdown listing of the narrative renderer (source lines
    179-181): Python sorted with key x[1] and reverse=True is a stable
    descending sort on counts; the listing keeps the first five entries. -/
def resourceBreakdownTop5 (report : SecurityReport) : List (Json × Nat) :=
  (report.resource_type_breakdown.mergeSort (fun a b => decide (b.2 ≤ a.2))).take 5

/-- The count printed in the Ready for Automation section of the narrative
    renderer (source line 175): the length of the capped automated_fix_ready
    list of the report. -/
def readyForAutomationCount (report : SecurityReport) : Nat :=
  report.automated_fix_ready.length

/-- Outcome of the az account show subprocess call that resolves the
    subscription identifier (source lines 20-30). -/
inductive SubscriptionResult where
  | success (id : String)
  | failure

/-- What a full run produces: the process exit code and the report, when
    one was generated and printed. -/
structure MainOutcome where
  exitCode : Nat
  report : Option SecurityReport

/-- The report-producing control flow of main: resolving the subscription
    fails fatally with exit code 1 before any report exists (source lines
    28-30); otherwise the report is generated from whatever the fetch
    produced and the process ends with exit code 0. -/
def runReportMode (sub : SubscriptionResult) (fetch : FetchResult)
    (timestamp : String) : MainOutcome :=
  match sub with
  | .failure => { exitCode := 1, report := none }
  | .success sid =>
    { exitCode := 0
      report := some (generate_security_report sid timestamp (get_security_recommendations fetch)) }

/-- The data selected for printing in json format mode. -/
inductive JsonOutput where
  | records (data : List ProcessedRec)
  | report (data : SecurityReport)

/-- The json branch of main (source lines 210-217): the high-priority flag
    is tested first, the automated-only flag only in the elif. -/
def jsonFormatData (high_priority_only automated_only : Bool)
    (fetch : FetchResult) (sid timestamp : String) : JsonOutput :=
  let recs := get_security_recommendations fetch
  if high_priority_only then JsonOutput.records (get_high_priority_recommendations recs)
  else if automated_only then JsonOutput.records (get_automated_fix_candidates recs)
  else JsonOutput.report (generate_security_report sid timestamp recs)

/-- Membership test among dict keys, with the key comparison oriented as in
    dictIncr. -/
def keyMem (ks : List Json) (key : Json) : Bool :=
  ks.any (fun k => k == key)

/-- The resource types of a recommendation list in first-seen order. -/
def firstSeenResourceTypes (recs : List ProcessedRec) : List Json :=
  recs.foldl (fun ks rec => if keyMem ks rec.resource_type then ks else ks ++ [rec.resource_type]) []

/-! ## Helper lemmas -/

lemma dictGet_obj (fields : List (String × Json)) (key : String) (d : Json) :
    dictGet (Json.obj fields) key d = some ((fields.lookup key).getD d) := rfl

lemma process_recommendations_append (xs ys : List Json) :
    process_recommendations (xs ++ ys)
      = process_recommendations xs ++ process_recommendations ys := by
  induction xs with
  | nil => rfl
  | cons x rest ih =>
    simp only [List.cons_append, process_recommendations]
    cases processRecord x <;> simp [ih]

lemma dictIncr_map_snd_sum (counts : List (Json × Nat)) (key : Json) :
    ((dictIncr counts key).map Prod.snd).sum = ((counts.map Prod.snd).sum) + 1 := by
  induction counts with
  | nil => rfl
  | cons p rest ih =>
    obtain ⟨k, v⟩ := p
    simp only [dictIncr]
    split
    · simp only [List.map_cons, List.sum_cons]
      omega
    · simp only [List.map_cons, List.sum_cons, ih]
      omega

lemma foldl_dictIncr_map_snd_sum (f : ProcessedRec → Json) (recs : List ProcessedRec)
    (acc : List (Json × Nat)) :
    (((recs.foldl (fun counts rec => dictIncr counts (f rec)) acc).map Prod.snd).sum)
      = ((acc.map Prod.snd).sum) + recs.length := by
  induction recs generalizing acc with
  | nil => simp
  | cons rec rest ih =>
    simp only [List.foldl_cons, List.length_cons]
    rw [ih, dictIncr_map_snd_sum]
    omega

lemma dictIncr_map_fst (counts : List (Json × Nat)) (key : Json) :
    (dictIncr counts key).map Prod.fst =
      if keyMem (counts.map Prod.fst) key then counts.map Prod.fst
      else counts.map Prod.fst ++ [key] := by
  induction counts with
  | nil => rfl
  | cons p rest ih =>
    obtain ⟨k, v⟩ := p
    by_cases h : (k == key) = true
    · simp [dictIncr, keyMem, h]
    · simp only [Bool.not_eq_true] at h
      simp only [dictIncr, h, Bool.false_eq_true, if_false, List.map_cons, keyMem,
        List.any_cons, Bool.false_or, ih, keyMem]
      split <;> rfl

lemma foldl_dictIncr_map_fst (f : ProcessedRec → Json) (recs : List ProcessedRec)
    (acc : List (Json × Nat)) :
    ((recs.foldl (fun counts rec => dictIncr counts (f rec)) acc).map Prod.fst)
      = recs.foldl (fun ks rec => if keyMem ks (f rec) then ks else ks ++ [f rec])
          (acc.map Prod.fst) := by
  induction recs generalizing acc with
  | nil => rfl
  | cons rec rest ih =>
    simp only [List.foldl_cons]
    rw [ih, dictIncr_map_fst]

/-! ## Claim theorems -/

/-- Claim C1: for every list of normalized recommendations, the report field
high_priority_recommendations contains exactly the records whose impact
equals "High", truncated to the first 10, in original relative order. -/
theorem c1_high_priority_top10 (recs : List ProcessedRec) (sid ts : String) :
    (generate_security_report sid ts recs).high_priority_recommendations
        = (recs.filter (fun rec => rec.impact == Json.str "High")).take 10
    ∧ List.Sublist ((generate_security_report sid ts recs).high_priority_recommendations) recs
    ∧ ((generate_security_report sid ts recs).high_priority_recommendations).all
        (fun rec => rec.impact == Json.str "High") = true
    ∧ ((generate_security_report sid ts recs).high_priority_recommendations).length ≤ 10 := by
  have h1 : (generate_security_report sid ts recs).high_priority_recommendations
      = (recs.filter (fun rec => rec.impact == Json.str "High")).take 10 := rfl
  refine ⟨h1, ?_, ?_, ?_⟩
  · rw [h1]
    exact (List.take_sublist _ _).trans (List.filter_sublist _)
  · rw [h1, List.all_eq_true]
    intro x hx
    simpa using List.of_mem_filter (List.mem_of_mem_take hx)
  · rw [h1]
    exact List.length_take_le _ _

/-- Claim C2: the report field automated_fix_ready is the first at-most-5
records with the automated fix flag set, in original relative order; the
uncapped view get_automated_fix_candidates keeps every such record; and
the automated_fix_candidates count is the length of the uncapped list. -/
theorem c2_automated_fix_capped_and_uncapped (recs : List ProcessedRec) (sid ts : String) :
    (generate_security_report sid ts recs).automated_fix_ready
        = (get_automated_fix_candidates recs).take 5
    ∧ get_automated_fix_candidates recs = recs.filter (fun rec => rec.automated_fix_available)
    ∧ (generate_security_report sid ts recs).automated_fix_candidates
        = (get_automated_fix_candidates recs).length
    ∧ List.Sublist ((generate_security_report sid ts recs).automated_fix_ready) recs
    ∧ ((generate_security_report sid ts recs).automated_fix_ready).all
        (fun rec => rec.automated_fix_available) = true
    ∧ ((generate_security_report sid ts recs).automated_fix_ready).length ≤ 5 := by
  have h1 : (generate_security_report sid ts recs).automated_fix_ready
      = (recs.filter (fun rec => rec.automated_fix_available)).take 5 := rfl
  refine ⟨rfl, rfl, rfl, ?_, ?_, ?_⟩
  · rw [h1]
    exact (List.take_sublist _ _).trans (List.filter_sublist _)
  · rw [h1, List.all_eq_true]
    intro x hx
    simpa using List.of_mem_filter (List.mem_of_mem_take hx)
  · rw [h1]
    exact List.length_take_le _ _

/-- Claim C5: in every generated report, the impact_breakdown counts sum to
total_recommendations, and so do the resource_type_breakdown counts. -/
theorem c5_breakdowns_sum_to_total (recs : List ProcessedRec) (sid ts : String) :
    (((generate_security_report sid ts recs).impact_breakdown).map Prod.snd).sum
        = (generate_security_report sid ts recs).total_recommendations
    ∧ (((generate_security_report sid ts recs).resource_type_breakdown).map Prod.snd).sum
        = (generate_security_report sid ts recs).total_recommendations := by
  constructor
  · simpa [generate_security_report] using
      foldl_dictIncr_map_snd_sum (fun rec => rec.impact) recs []
  · simpa [generate_security_report] using
      foldl_dictIncr_map_snd_sum (fun rec => rec.resource_type) recs []

/-- Claim C3: check_automated_fix returns true exactly on the six
identifiers hard-coded in the static table, and false on every other
string, including the empty string. -/
theorem c3_automated_fix_table_exact (s : String) :
    (check_automated_fix s = true ↔
      (s = "b14a3c4e-f6c8-4b21-9e3a-3c4b5f6e7a8b"
        ∨ s = "a1b2c3d4-e5f6-7890-abcd-ef1234567890"
        ∨ s = "c3d4e5f6-1234-5678-9abc-def123456789"
        ∨ s = "e5f6a7b8-9012-3456-7890-abc123456789"
        ∨ s = "f6a7b8c9-2345-6789-0123-456789abcdef"
        ∨ s = "a7b8c9d0-3456-7890-1234-56789abcdefg"))
    ∧ check_automated_fix "" = false := by
  refine ⟨?_, rfl⟩
  simp only [check_automated_fix, automated_fixes_table, List.lookup]
  repeat' split
  all_goals simp_all

set_option maxHeartbeats 2000000 in
/-- Claim C4: when an optional field is absent from a raw record,
normalization substitutes the documented default literal for it. The
hypotheses fix the nested dicts the extraction walks through (properties,
resourceMetadata, shortDescription, each defaulting to an empty dict when
absent) and require the automated-fix table lookup on the extracted
recommendationTypeId value to succeed, i.e. the value is a hashable key
(an unhashable one raises TypeError in Python and the record is skipped,
the case claim C7 covers); each conjunct states that an absent field
yields its default literal. In particular an absent recommendationTypeId
defaults to the empty string, on which the lookup always succeeds. The
record type makes the field always present and never null. -/
theorem c4_missing_fields_get_defaults (fs ps ms ss : List (String × Json)) (afix : Bool)
    (hprops : (fs.lookup "properties").getD (Json.obj []) = Json.obj ps)
    (hmeta : (ps.lookup "resourceMetadata").getD (Json.obj []) = Json.obj ms)
    (hshort : (ps.lookup "shortDescription").getD (Json.obj []) = Json.obj ss)
    (hfix : checkAutomatedFixKey ((ps.lookup "recommendationTypeId").getD (Json.str ""))
      = some afix) :
    ∃ p, processRecord (Json.obj fs) = some p
      ∧ (fs.lookup "id" = none → p.id = Json.str "")
      ∧ (ps.lookup "category" = none → p.category = Json.str "Unknown")
      ∧ (ps.lookup "impact" = none → p.impact = Json.str "Unknown")
      ∧ (ss.lookup "problem" = none → p.problem = Json.str "No description available")
      ∧ (ss.lookup "solution" = none → p.solution = Json.str "No solution available")
      ∧ (ms.lookup "resourceType" = none → p.resource_type = Json.str "Unknown")
      ∧ (ms.lookup "resourceGroup" = none → p.resource_group = Json.str "Unknown")
      ∧ (ms.lookup "resourceId" = none → p.resource_id = Json.str "")
      ∧ (ps.lookup "recommendationTypeId" = none → p.recommendation_type = Json.str "")
      ∧ (ps.lookup "lastUpdated" = none → p.last_updated = Json.str "") := by
  refine ⟨{ id := (fs.lookup "id").getD (Json.str ""),
            category := (ps.lookup "category").getD (Json.str "Unknown"),
            impact := (ps.lookup "impact").getD (Json.str "Unknown"),
            problem := (ss.lookup "problem").getD (Json.str "No description available"),
            solution := (ss.lookup "solution").getD (Json.str "No solution available"),
            resource_type := (ms.lookup "resourceType").getD (Json.str "Unknown"),
            resource_group := (ms.lookup "resourceGroup").getD (Json.str "Unknown"),
            resource_id := (ms.lookup "resourceId").getD (Json.str ""),
            recommendation_type := (ps.lookup "recommendationTypeId").getD (Json.str ""),
            last_updated := (ps.lookup "lastUpdated").getD (Json.str ""),
            automated_fix_available := afix },
        ?_, ?_, ?_, ?_, ?_, ?_, ?_, ?_, ?_, ?_, ?_⟩
  · rw [processRecord]
    simp only [dictGet_obj, hprops, hmeta, hshort, hfix, Option.some_bind]
  · intro h
    simp [h]
  · intro h
    simp [h]
  · intro h
    simp [h]
  · intro h
    simp [h]
  · intro h
    simp [h]
  · intro h
    simp [h]
  · intro h
    simp [h]
  · intro h
    simp [h]
  · intro h
    simp [h]
  · intro h
    simp [h]

/-- Witness for C4: the fully empty raw record, where every optional field
is absent; the table lookup on the defaulted empty-string type identifier
succeeds with false, and every field of the normalized record is its
default literal. -/
theorem c4_witness :
    ((List.lookup "properties" ([] : List (String × Json))).getD (Json.obj []) = Json.obj [])
    ∧ ((List.lookup "resourceMetadata" ([] : List (String × Json))).getD (Json.obj [])
        = Json.obj [])
    ∧ ((List.lookup "shortDescription" ([] : List (String × Json))).getD (Json.obj [])
        = Json.obj [])
    ∧ checkAutomatedFixKey ((List.lookup "recommendationTypeId"
          ([] : List (String × Json))).getD (Json.str "")) = some false
    ∧ ∃ p, processRecord (Json.obj []) = some p
        ∧ p.id = Json.str ""
        ∧ p.category = Json.str "Unknown"
        ∧ p.impact = Json.str "Unknown"
        ∧ p.problem = Json.str "No description available"
        ∧ p.solution = Json.str "No solution available"
        ∧ p.resource_type = Json.str "Unknown"
        ∧ p.resource_group = Json.str "Unknown"
        ∧ p.resource_id = Json.str ""
        ∧ p.recommendation_type = Json.str ""
        ∧ p.last_updated = Json.str "" := by
  refine ⟨rfl, rfl, rfl, rfl, ?_⟩
  obtain ⟨p, hp, h1, h2, h3, h4, h5, h6, h7, h8, h9, h10⟩ :=
    c4_missing_fields_get_defaults [] [] [] [] false rfl rfl rfl rfl
  exact ⟨p, hp, h1 rfl, h2 rfl, h3 rfl, h4 rfl, h5 rfl, h6 rfl, h7 rfl, h8 rfl,
    h9 rfl, h10 rfl⟩

/-- Claim C6: both recommendation fetch failures (non-zero process exit,
malformed JSON) yield the empty list, and the run still exits with code 0
and prints a report with zero totals and empty breakdowns; failure to
resolve the subscription identifier exits with code 1 and no report. -/
theorem c6_fetch_failure_degrades_subscription_failure_fatal
    (sid ts : String) (fetch : FetchResult) :
    get_security_recommendations FetchResult.processError = []
    ∧ get_security_recommendations FetchResult.parseError = []
    ∧ (runReportMode (SubscriptionResult.success sid) FetchResult.processError ts).exitCode = 0
    ∧ (runReportMode (SubscriptionResult.success sid) FetchResult.processError ts).report
        = some (generate_security_report sid ts [])
    ∧ (runReportMode (SubscriptionResult.success sid) FetchResult.parseError ts).exitCode = 0
    ∧ (runReportMode (SubscriptionResult.success sid) FetchResult.parseError ts).report
        = some (generate_security_report sid ts [])
    ∧ (generate_security_report sid ts []).total_recommendations = 0
    ∧ (generate_security_report sid ts []).impact_breakdown = []
    ∧ (generate_security_report sid ts []).resource_type_breakdown = []
    ∧ (runReportMode SubscriptionResult.failure fetch ts).exitCode = 1
    ∧ (runReportMode SubscriptionResult.failure fetch ts).report = none :=
  ⟨rfl, rfl, rfl, rfl, rfl, rfl, rfl, rfl, rfl, rfl, rfl⟩

/-- Claim C7: a record whose extraction raises is skipped on its own and
normalization continues with the remaining records in input order. -/
theorem c7_malformed_record_skipped (pre post : List Json) (bad : Json)
    (hbad : processRecord bad = none) :
    process_recommendations (pre ++ bad :: post)
        = process_recommendations pre ++ process_recommendations post
    ∧ process_recommendations (pre ++ bad :: post)
        = process_recommendations (pre ++ post) := by
  constructor
  · rw [process_recommendations_append]
    simp [process_recommendations, hbad]
  · rw [process_recommendations_append, process_recommendations_append]
    simp [process_recommendations, hbad]

/-- Witness for C7: a null entry in the raw list (extraction raises, since
only dicts have the get method) is skipped and the batch result is the
processing of the remaining records. -/
theorem c7_witness :
    processRecord Json.null = none
    ∧ process_recommendations [Json.null]
        = process_recommendations [] ++ process_recommendations [] :=
  ⟨rfl, (c7_malformed_record_skipped [] [] Json.null rfl).1⟩

lemma descending_trans (a b c : Json × Nat) (h1 : decide (b.2 ≤ a.2) = true)
    (h2 : decide (c.2 ≤ b.2) = true) : decide (c.2 ≤ a.2) = true := by
  simp only [decide_eq_true_eq] at h1 h2 ⊢
  omega

lemma descending_total (a b : Json × Nat) :
    (decide (b.2 ≤ a.2) || decide (a.2 ≤ b.2)) = true := by
  simp only [Bool.or_eq_true, decide_eq_true_eq]
  exact Nat.le_total b.2 a.2

lemma mergeSort_filter_count (l : List (Json × Nat)) (n : Nat) :
    (l.mergeSort (fun a b => decide (b.2 ≤ a.2))).filter (fun p => p.2 == n)
      = l.filter (fun p => p.2 == n) := by
  have hpw : (l.filter (fun p => p.2 == n)).Pairwise
      (fun a b : Json × Nat => decide (b.2 ≤ a.2) = true) := by
    apply List.pairwise_of_forall_mem_list
    intro a ha b hb
    have ha2 : a.2 = n := by simpa using List.of_mem_filter ha
    have hb2 : b.2 = n := by simpa using List.of_mem_filter hb
    simp [ha2, hb2]
  have hsub : List.Sublist (l.filter (fun p => p.2 == n))
      (l.mergeSort (fun a b => decide (b.2 ≤ a.2))) :=
    List.sublist_mergeSort descending_trans descending_total hpw (List.filter_sublist l)
  have hsub2 := hsub.filter (fun p => p.2 == n)
  rw [List.filter_filter] at hsub2
  simp only [Bool.and_self] at hsub2
  have hperm : List.Perm
      ((l.mergeSort (fun a b => decide (b.2 ≤ a.2))).filter (fun p => p.2 == n))
      (l.filter (fun p => p.2 == n)) :=
    (List.mergeSort_perm l _).filter _
  exact (hsub2.eq_of_length hperm.length_eq.symm).symm

/-- Claim C8: the at-most-5 resource types listed by the narrative renderer
are ordered by descending count; entries with equal counts keep the order
of the breakdown dict (a prefix of its equal-count entries), whose key
order is the order in which each resource type was first seen in the
input. -/
theorem c8_resource_top5_stable_descending (recs : List ProcessedRec) (sid ts : String) :
    List.Pairwise (fun a b : Json × Nat => b.2 ≤ a.2)
        (resourceBreakdownTop5 (generate_security_report sid ts recs))
    ∧ (∀ n : Nat, ∃ t,
        ((resourceBreakdownTop5 (generate_security_report sid ts recs)).filter
            (fun p => p.2 == n)) ++ t
          = ((generate_security_report sid ts recs).resource_type_breakdown).filter
              (fun p => p.2 == n))
    ∧ ((generate_security_report sid ts recs).resource_type_breakdown).map Prod.fst
        = firstSeenResourceTypes recs := by
  refine ⟨?_, ?_, ?_⟩
  · have h := List.sorted_mergeSort descending_trans descending_total
      ((generate_security_report sid ts recs).resource_type_breakdown)
    have h2 := List.Pairwise.sublist (List.take_sublist 5 _) h
    exact h2.imp (fun hab => of_decide_eq_true hab)
  · intro n
    refine ⟨((((generate_security_report sid ts recs).resource_type_breakdown).mergeSort
        (fun a b => decide (b.2 ≤ a.2))).drop 5).filter (fun p => p.2 == n), ?_⟩
    rw [resourceBreakdownTop5]
    rw [← List.filter_append, List.take_append_drop]
    exact mergeSort_filter_count _ n
  · exact foldl_dictIncr_map_fst (fun rec => rec.resource_type) recs []

/-- A raw recommendation record whose type identifier is in the automated
fix table, so its normalized record has the automated fix flag set. -/
def autoFixRawRecord : Json :=
  Json.obj [("properties", Json.obj [("recommendationTypeId",
    Json.str "b14a3c4e-f6c8-4b21-9e3a-3c4b5f6e7a8b")])]

/-- Counterexample to claim C9 as stated: with six automation-ready
records, the Ready for Automation section prints the length of the capped
automated_fix_ready list, which is 5, not the number 6 of records whose
automated fix flag is true. -/
theorem c9_counterexample :
    ¬ (readyForAutomationCount
        (generate_security_report "sub" "2025-01-01"
          (process_recommendations (List.replicate 6 autoFixRawRecord)))
      = ((process_recommendations (List.replicate 6 autoFixRawRecord)).filter
          (fun rec => rec.automated_fix_available)).length) := by
  decide

/-- Claim C9 amended: the Ready for Automation section of the narrative
report prints the length of the capped automated_fix_ready list, which is
the number of automation-ready records truncated at 5, not the full
count. -/
theorem c9_amended_ready_count (recs : List ProcessedRec) (sid ts : String) :
    readyForAutomationCount (generate_security_report sid ts recs)
      = min 5 ((recs.filter (fun rec => rec.automated_fix_available)).length) := by
  simp [readyForAutomationCount, generate_security_report, get_automated_fix_candidates,
    List.length_take]

/-- Claim C10: in json format mode with both flags set, the high-priority
branch is taken: the emitted data is the High or Medium filtered list and
the automated-only flag is ignored. -/
theorem c10_high_priority_flag_precedence (fetch : FetchResult) (sid ts : String) :
    jsonFormatData true true fetch sid ts
        = JsonOutput.records (get_high_priority_recommendations
            (get_security_recommendations fetch))
    ∧ jsonFormatData true true fetch sid ts = jsonFormatData true false fetch sid ts :=
  ⟨rfl, rfl⟩
